import Mathlib

/-!
Shallow embedding of the NXOBot event routing and delivery core
(src/index.js): the persisted routing table (config.json shape), channel
resolution (getChannelId), the removechannel command, the message
formatters for listing and dispute events, and the per-scope delivery
loops of the legacy /webhook/listing handler, handleListingCreated and
handleDisputeCreated.  JavaScript objects keyed by guild id are modelled
as association lists; JS `x || y` falsiness on strings is modelled
explicitly (the empty string is falsy); the process clock is passed as an
explicit parameter wherever the code calls Date.now(); the chat-platform
client is an injected oracle (send / thread-create outcome per channel id).
-/

/-- JS `s || null` on an optional string value: undefined, null and the
empty string all collapse to null. -/
def strOrNull (x : Option String) : Option String :=
  match x with
  | some s => if s = "" then none else some s
  | none => none

/-- First-match association-list lookup, modelling `obj[key]` on a JS
object (keys are unique in configs produced by the bot). -/
def lookupKey {α : Type} (l : List (String × α)) (k : String) : Option α :=
  match l with
  | [] => none
  | p :: t => if p.1 = k then some p.2 else lookupKey t k

/-- `obj[key]` followed by a truthiness test on the string value, as in
`config[guildId].categoryChannels[category]` used inside an `if`. -/
def lookupTruthy (l : List (String × String)) (k : String) : Option String :=
  match lookupKey l k with
  | some v => if v = "" then none else some v
  | none => none

/-- `obj[key] = v` on a JS object: overwrite in place, append if new. -/
def setKey {α : Type} (l : List (String × α)) (k : String) (v : α) :
    List (String × α) :=
  match l with
  | [] => [(k, v)]
  | p :: t => if p.1 = k then (k, v) :: t else p :: setKey t k v

/-- `delete obj[key]` on a JS object. -/
def eraseKey {α : Type} (l : List (String × α)) (k : String) :
    List (String × α) :=
  l.filter (fun p => p.1 ≠ k)

/-- One scope's entry in config.json: an optional general channel id plus a
category → channel map (`categoryChannels`). -/
structure GuildConfig where
  channelId : Option String
  categoryChannels : List (String × String)
deriving DecidableEq

/-- The persisted routing table: guild id → GuildConfig, in insertion
order (Object.entries order). -/
abbrev Config := List (String × GuildConfig)

/-- getChannelId (src/index.js lines 50-61): with a truthy category and a
truthy category-specific entry, return that entry; otherwise fall back to
the scope's general channel (`config[guildId].channelId || null`). -/
def getChannelId (config : Config) (guildId : String)
    (category : Option String) : Option String :=
  match lookupKey config guildId with
  | none => none
  | some gc =>
    match category with
    | some c =>
      if c ≠ "" then
        match lookupTruthy gc.categoryChannels c with
        | some ch => some ch
        | none => strOrNull gc.channelId
      else strOrNull gc.channelId
    | none => strOrNull gc.channelId

/-- The per-dispatch fan-out used by handleListingCreated and
handleDisputeCreated: iterate every configured scope and resolve each
through getChannelId. -/
def resolveTargets (config : Config) (category : Option String) :
    List (String × String) :=
  config.filterMap (fun p =>
    (getChannelId config p.1 category).map (fun ch => (p.1, ch)))

/-- The removechannel command handler (src/index.js lines 270-304): with a
category, delete only that category entry (requiring it to exist); with no
category, `delete config[guildId]` removes the scope's whole entry.  The
Bool records whether anything was removed (the success vs error reply). -/
def removeChannel (config : Config) (guildId : String)
    (category : Option String) : Config × Bool :=
  match category with
  | some c =>
    match lookupKey config guildId with
    | none => (config, false)
    | some gc =>
      match lookupTruthy gc.categoryChannels c with
      | none => (config, false)
      | some _ =>
        (setKey config guildId
          { channelId := gc.channelId
            categoryChannels := eraseKey gc.categoryChannels c }, true)
  | none =>
    match lookupKey config guildId with
    | some _ => (eraseKey config guildId, true)
    | none => (config, false)

/-- An exact decimal number: `mantissa / 10 ^ scale`.  Payload numbers and
parseFloat results are short decimal literals, which JS doubles carry
closely enough that Number.prototype.toFixed(2) agrees with exact decimal
rounding on them; the embedding therefore works with the exact decimal. -/
structure ScaledDec where
  mantissa : ℤ
  scale : ℕ
deriving DecidableEq

/-- A JS value arriving in the `price` position of a webhook payload:
a number, a string, or absent (undefined/null). -/
inductive JSPrice
  | num (v : ScaledDec)
  | str (s : String)
  | absent
deriving DecidableEq

/-- JS truthiness of a price value: 0, the empty string and absent are
falsy. -/
def priceTruthy : JSPrice → Bool
  | .num v => decide (v.mantissa ≠ 0)
  | .str s => decide (s ≠ "")
  | .absent => false

/-- Decimal digit list to a natural number. -/
def digitsToNat (ds : List Char) : Nat :=
  ds.foldl (fun acc c => acc * 10 + (c.toNat - '0'.toNat)) 0

/-- Model of the JavaScript parseFloat builtin on the grammar
whitespace, optional sign, digits, optional dot and digits (the shapes
webhook payloads carry; exponents and Infinity are not modelled).
Returns none where parseFloat returns NaN. -/
def jsParseFloat (s : String) : Option ScaledDec :=
  let cs := s.toList.dropWhile (fun c => c.isWhitespace)
  let sgn : ℤ × List Char :=
    match cs with
    | '-' :: r => (-1, r)
    | '+' :: r => (1, r)
    | _ => (1, cs)
  let ip := sgn.2.takeWhile (fun c => c.isDigit)
  let rest := sgn.2.dropWhile (fun c => c.isDigit)
  let fp : List Char :=
    match rest with
    | '.' :: r => r.takeWhile (fun c => c.isDigit)
    | _ => []
  if ip = [] ∧ fp = [] then none
  else some
    { mantissa := sgn.1 *
        ((digitsToNat ip : ℤ) * 10 ^ fp.length + (digitsToNat fp : ℤ))
      scale := fp.length }

/-- Number.prototype.toFixed(2): split off the sign, pick the integer n
closest to 100 times the magnitude (ties to the larger n, per the
ECMAScript algorithm), render as two-decimal digits. -/
def toFixed2 (v : ScaledDec) : String :=
  let m : ℕ := v.mantissa.natAbs
  let n : ℕ := (200 * m + 10 ^ v.scale) / (2 * 10 ^ v.scale)
  (if v.mantissa < 0 then "-" else "") ++
    toString (n / 100) ++ "." ++
    (if n % 100 < 10 then "0" else "") ++ toString (n % 100)

/-- Price rendering of handleListingCreated (lines 470 and 488):
`parseFloat(listing.price || 0).toFixed(2)`; parseFloat of a
non-numeric string is NaN, which toFixed renders as "NaN". -/
def listingPriceValue (price : JSPrice) : String :=
  match (if priceTruthy price then price else JSPrice.num ⟨0, 0⟩) with
  | .num v => toFixed2 v
  | .str s =>
    match jsParseFloat s with
    | some v => toFixed2 v
    | none => "NaN"
  | .absent => toFixed2 ⟨0, 0⟩

/-- Price rendering of the legacy /webhook/listing handler (line 409):
`parseFloat(listing.price).toFixed(2)` with no default. -/
def legacyPriceValue (price : JSPrice) : String :=
  match price with
  | .num v => toFixed2 v
  | .str s =>
    match jsParseFloat s with
    | some v => toFixed2 v
    | none => "NaN"
  | .absent => "NaN"

/-- Description truncation of both listing handlers (lines 417-420 and
496-499): over 1000 characters is cut to the first 997 plus "...". -/
def truncateDescription (d : String) : String :=
  if d.length > 1000 then d.take 997 ++ "..." else d

/-- A field of a Discord embed; the value is Option String so that a JS
null slipped into a field value (as handleListingCreated does for a
missing category) stays observable. -/
structure EmbedField where
  name : String
  value : Option String
  inline : Bool
deriving DecidableEq

/-- What .setTimestamp received: a date parsed from a payload string, or
the process clock (Date.now() / new Date()) at call time. -/
inductive Timestamp
  | given (iso : String)
  | clock (nowMs : Nat)
deriving DecidableEq

/-- The parts of an EmbedBuilder result the handlers set. -/
structure Embed where
  title : String
  description : String
  fields : List EmbedField
  color : Nat
  timestamp : Timestamp
  footer : String
  url : Option String
  image : Option String
deriving DecidableEq

/-- FRONTEND_URL default (src/index.js line 15) used in listing links. -/
def FRONTEND_URL : String := "http://localhost:5173"

/-- The field of an embed with the given name, if any, projected to its
value (find over the embed's field list). -/
def fieldValue (e : Embed) (name : String) : Option (Option String) :=
  (e.fields.find? (fun f => f.name == name)).map (fun f => f.value)

/-- A listing event payload (new ListingEventEmitter shape or legacy
shape; handleListingCreated accepts both via `listing_id || id`). -/
structure ListingPayload where
  listing_id : Option String
  id : Option String
  title : Option String
  price : JSPrice
  category : Option String
  description : Option String
  images : List String
  created_at : Option String
deriving DecidableEq

/-- The optional description field appended by both listing handlers. -/
def listingDescField (description : Option String) : List EmbedField :=
  match description with
  | some d => [⟨"📝 Description", some (truncateDescription d), false⟩]
  | none => []

/-- Embed construction of handleListingCreated (src/index.js lines
468-511), with the call-time clock passed explicitly (nowMs) to expose
the Date.now() dependence when created_at is absent.  Note the category
field's value is the normalized `listing.category || null` with no
default. -/
def formatListingCreated (listing : ListingPayload) (nowMs : Nat) : Embed :=
  let listingId := (strOrNull listing.listing_id).orElse
    (fun _ => strOrNull listing.id)
  let listingUrl := FRONTEND_URL ++ "/product/" ++ listingId.getD "undefined"
  { title := "🆕 New Listing Available!"
    description := "**" ++ (strOrNull listing.title).getD "Untitled" ++ "**"
    fields :=
      [⟨"💰 Price", some ("$" ++ listingPriceValue listing.price), true⟩,
       ⟨"📂 Category", strOrNull listing.category, true⟩]
      ++ listingDescField (strOrNull listing.description)
      ++ [⟨"🔗 View Listing",
           some ("[Click here to view](" ++ listingUrl ++ ")"), false⟩]
    color := 0x00AE86
    timestamp :=
      match strOrNull listing.created_at with
      | some s => Timestamp.given s
      | none => Timestamp.clock nowMs
    footer := "NXOLand Marketplace"
    url := some listingUrl
    image := listing.images.head? }

/-- Embed construction of the legacy /webhook/listing handler (lines
404-432): same shape but the category field defaults to "N/A", the price
has no `|| 0` default and the link uses `listing.id` only. -/
def formatListingLegacy (listing : ListingPayload) (nowMs : Nat) : Embed :=
  let listingUrl := FRONTEND_URL ++ "/product/" ++
    (strOrNull listing.id).getD "undefined"
  { title := "🆕 New Listing Available!"
    description := "**" ++ (strOrNull listing.title).getD "undefined" ++ "**"
    fields :=
      [⟨"💰 Price", some ("$" ++ legacyPriceValue listing.price), true⟩,
       ⟨"📂 Category", some ((strOrNull listing.category).getD "N/A"), true⟩]
      ++ listingDescField (strOrNull listing.description)
      ++ [⟨"🔗 View Listing",
           some ("[Click here to view](" ++ listingUrl ++ ")"), false⟩]
    color := 0x00AE86
    timestamp :=
      match strOrNull listing.created_at with
      | some s => Timestamp.given s
      | none => Timestamp.clock nowMs
    footer := "NXOLand Marketplace"
    url := some listingUrl
    image := listing.images.head? }

/-- A dispute.resolved payload (the fields handleDisputeResolved reads;
ids are kept in their interpolated string form). -/
structure DisputeResolvedPayload where
  dispute_id : String
  order_id : String
  resolution : Option String
  resolver_username : Option String
  resolution_notes : Option String
  buyer_discord_id : Option String
  seller_discord_id : Option String
  resolved_at : Option String
deriving DecidableEq

/-- Embed construction of handleDisputeResolved (src/index.js lines
648-659): the resolution field is the raw resolution code (default
"N/A"), resolver defaults to "Admin", notes default to "No notes
provided", and the color is the fixed green 0x51CF66. -/
def formatDisputeResolved (d : DisputeResolvedPayload) (nowMs : Nat) : Embed :=
  { title := "✅ Dispute Resolved"
    description := "**Dispute #" ++ d.dispute_id ++ "** has been resolved"
    fields :=
      [⟨"📦 Order ID", some ("#" ++ d.order_id), true⟩,
       ⟨"⚖️ Resolution", some ((strOrNull d.resolution).getD "N/A"), true⟩,
       ⟨"👤 Resolved By",
         some ((strOrNull d.resolver_username).getD "Admin"), true⟩,
       ⟨"📝 Notes",
         some ((strOrNull d.resolution_notes).getD "No notes provided"),
         false⟩]
    color := 0x51CF66
    timestamp :=
      match strOrNull d.resolved_at with
      | some s => Timestamp.given s
      | none => Timestamp.clock nowMs
    footer := "NXOLand Dispute System"
    url := none
    image := none }

/-- True on a successful Except result. -/
def exceptOk {α : Type} (e : Except String α) : Bool :=
  match e with
  | .ok _ => true
  | .error _ => false

/-- Observable outcome of the legacy /webhook/listing per-guild loop
(lines 393-440): the sent counter, the pushed error records
(guildId, channelId, message), and the trace of channels on which a
delivery was invoked. -/
structure LegacyLoop where
  sentCount : ℕ
  errors : List (String × String × String)
  attempts : List String
deriving DecidableEq

/-- The legacy /webhook/listing delivery loop: for each config entry in
order, resolve the scope's general channel (`guildConfig.channelId`),
skip if unset, otherwise attempt one send through the injected gateway
oracle; a failure is pushed onto `errors` and the loop continues. -/
def legacyLoop (send : String → Except String Unit) : Config → LegacyLoop
  | [] => ⟨0, [], []⟩
  | p :: rest =>
    let r := legacyLoop send rest
    match strOrNull p.2.channelId with
    | none => r
    | some ch =>
      match send ch with
      | .ok _ => ⟨r.sentCount + 1, r.errors, ch :: r.attempts⟩
      | .error e => ⟨r.sentCount, (p.1, ch, e) :: r.errors, ch :: r.attempts⟩

/-- HTTP-level outcome of the legacy /webhook/listing handler. -/
inductive WebhookOutcome
  | ok (sentTo : ℕ) (errors : List (String × String × String))
  | err500 (errors : List (String × String × String))
deriving DecidableEq

/-- Aggregation of the legacy handler (lines 442-453): respond 500 when
nothing was sent AND the config object has at least one key (even a key
holding no destination); otherwise respond success with the count and
any per-target errors. -/
def legacyListingResult (send : String → Except String Unit)
    (config : Config) : WebhookOutcome :=
  let r := legacyLoop send config
  if r.sentCount = 0 ∧ config ≠ [] then .err500 r.errors
  else .ok r.sentCount r.errors

/-- The scopes of a config holding a truthy general channel, paired with
that channel: the targets the legacy loop actually delivers to. -/
def resolvedGeneral (config : Config) : List (String × String) :=
  config.filterMap (fun p =>
    (strOrNull p.2.channelId).map (fun ch => (p.1, ch)))

/-- Number of resolved general-channel targets whose delivery succeeds
under the given gateway oracle. -/
def legacySucceeded (send : String → Except String Unit)
    (config : Config) : ℕ :=
  ((resolvedGeneral config).filter (fun t => exceptOk (send t.2))).length

/-- The error records of the resolved general-channel targets whose
delivery fails under the given gateway oracle. -/
def legacyFailures (send : String → Except String Unit) (config : Config) :
    List (String × String × String) :=
  (resolvedGeneral config).filterMap (fun t =>
    match send t.2 with
    | .ok _ => none
    | .error e => some (t.1, t.2, e))

/-- Observable outcome of the handleListingCreated loop (lines 476-518):
only a counter is kept and failures are merely logged. -/
structure CreatedLoop where
  sentCount : ℕ
  attempts : List String
deriving DecidableEq

/-- The handleListingCreated delivery loop body: per-category resolution
through getChannelId for each config entry, one send attempt each,
failures swallowed. -/
def createdLoop (send : String → Except String Unit) (config : Config)
    (category : Option String) : List (String × GuildConfig) → CreatedLoop
  | [] => ⟨0, []⟩
  | p :: rest =>
    let r := createdLoop send config category rest
    match getChannelId config p.1 category with
    | none => r
    | some ch =>
      match send ch with
      | .ok _ => ⟨r.sentCount + 1, ch :: r.attempts⟩
      | .error _ => ⟨r.sentCount, ch :: r.attempts⟩

/-- handleListingCreated's loop over the whole config. -/
def handleListingCreatedLoop (send : String → Except String Unit)
    (config : Config) (category : Option String) : CreatedLoop :=
  createdLoop send config category config

/-- Gateway outcome of one dispute-thread creation attempt on a channel:
the channel was fetched but does not support private threads (the two
`continue` guards, lines 544-554), the thread was created and the intro
message sent, or a step threw (fetch, create or send). -/
inductive CreateResult
  | unsupported
  | ok (threadId : String)
  | err (msg : String)
deriving DecidableEq

/-- True when the creation attempt produced a thread. -/
def createOk : CreateResult → Bool
  | .ok _ => true
  | _ => false

/-- True on the `continue` outcome (channel type unsupported). -/
def isUnsupported : CreateResult → Bool
  | .unsupported => true
  | _ => false

/-- The thread info handleDisputeCreated returns to the webhook caller. -/
structure ThreadInfo where
  thread_id : String
  channel_id : String
  guild_id : String
deriving DecidableEq

/-- The handleDisputeCreated loop body (lines 532-628): per-category
resolution through getChannelId; on the first successful thread creation
it RETURNS the thread info (ending the loop); a thrown error is
re-thrown (line 625), aborting the loop; the unsupported-channel guards
`continue`.  Also returns the trace of channels on which a creation was
attempted. -/
def disputeLoop (create : String → CreateResult) (config : Config)
    (category : Option String) :
    List (String × GuildConfig) → Except String (Option ThreadInfo) × List String
  | [] => (Except.ok none, [])
  | p :: rest =>
    match getChannelId config p.1 category with
    | none => disputeLoop create config category rest
    | some ch =>
      match create ch with
      | .unsupported =>
        let r := disputeLoop create config category rest
        (r.1, ch :: r.2)
      | .ok tid => (Except.ok (some ⟨tid, ch, p.1⟩), [ch])
      | .err e => (Except.error e, [ch])

/-- handleDisputeCreated over the whole config (category already
normalized as `dispute.category || null`). -/
def handleDisputeCreated (create : String → CreateResult) (config : Config)
    (category : Option String) :
    Except String (Option ThreadInfo) × List String :=
  disputeLoop create config category config

/-- The unified /webhook response for a listing.created event (lines
332-335 with 355-359): the endpoint responds 500 only when the handler
throws, and handleListingCreated catches every per-target delivery error
inside its loop (lines 515-517, log only), so the response is always a
success — it carries no per-target errors, whatever the loop's
outcomes. -/
def unifiedListingCreatedResult (send : String → Except String Unit)
    (config : Config) (category : Option String) : WebhookOutcome :=
  WebhookOutcome.ok (handleListingCreatedLoop send config category).sentCount []

/-- Number of targets resolved by the per-category fan-out whose delivery
succeeds under the given gateway oracle. -/
def createdSucceeded (send : String → Except String Unit) (config : Config)
    (category : Option String) : ℕ :=
  (((resolveTargets config category).map (fun t => t.2)).filter
    (fun ch => exceptOk (send ch))).length

/-- A scope configured with a general channel only (no category map). -/
def cfgGeneralOnly : Config := [("g", ⟨some "GEN", []⟩)]

/-- A scope with a general channel and one unrelated category entry. -/
def cfgOneCategory : Config := [("w", ⟨some "W", [("k", "V")]⟩)]

/-- Two scopes, each with a configured general channel. -/
def cfgTwoGuilds : Config := [("g1", ⟨some "C1", []⟩), ("g2", ⟨some "C2", []⟩)]

/-- A config whose only scope entry holds no destination at all. -/
def cfgNoDest : Config := [("g", ⟨none, []⟩)]

/-- A scope with both a general channel and a category channel, next to a
second scope. -/
def cfgRemoveDemo : Config :=
  [("g", ⟨some "GEN", [("wos_accounts", "CAT")]⟩), ("h", ⟨some "HC", []⟩)]

/-- Gateway oracle: thread creation throws on channel C1, succeeds
elsewhere. -/
def createFailFirst : String → CreateResult := fun ch =>
  if ch = "C1" then CreateResult.err "send failed" else CreateResult.ok "T2"

/-- Gateway oracle: thread creation always succeeds. -/
def createOkAll : String → CreateResult := fun _ => CreateResult.ok "T9"

/-- Gateway oracle: every send succeeds. -/
def sendOkAll : String → Except String Unit := fun _ => Except.ok ()

/-- Gateway oracle: every send fails. -/
def sendFailAll : String → Except String Unit := fun _ =>
  Except.error "send failed"

/-- A listing payload with no created_at timestamp. -/
def pNoTimestamp : ListingPayload :=
  ⟨some "7", none, some "X", .str "10", some "wos_accounts", none, [], none⟩

/-- A listing payload with a created_at timestamp present. -/
def pWithTimestamp : ListingPayload :=
  ⟨some "7", none, some "X", .str "10", some "wos_accounts", none, [],
    some "2024-01-01T00:00:00Z"⟩

/-- A dispute.resolved payload resolved in favor of the buyer. -/
def pBuyerResolved : DisputeResolvedPayload :=
  ⟨"3", "9", some "buyer", some "mod", some "checked the logs", none, none,
    some "2024-01-02T00:00:00Z"⟩

/-- A dispute.resolved payload with all optional fields absent. -/
def pDefaultsResolved : DisputeResolvedPayload :=
  ⟨"4", "8", none, none, none, none, none, none⟩

/-- A listing payload whose price string has no numeric content. -/
def pPriceAbc : ListingPayload :=
  ⟨some "5", none, some "X", .str "abc", some "wos_accounts", none, [],
    some "2024-01-01T00:00:00Z"⟩

/-- A second listing payload with an unparseable price string. -/
def pPriceZZ : ListingPayload :=
  ⟨some "6", none, some "X", .str "zz", some "wos_accounts", none, [],
    some "2024-01-01T00:00:00Z"⟩

/-- A listing payload carrying a short description. -/
def pDescHello : ListingPayload :=
  ⟨some "8", none, some "X", .str "10", some "wos_accounts", some "hello",
    [], some "2024-01-01T00:00:00Z"⟩

/-- A listing.created payload with no category. -/
def pNoCategory : ListingPayload :=
  ⟨some "5", none, some "X", .str "10", none, none, [],
    some "2024-01-01T00:00:00Z"⟩

theorem lookupKey_eraseKey_self {α : Type} (l : List (String × α))
    (k : String) : lookupKey (eraseKey l k) k = none := by
  induction l with
  | nil => rfl
  | cons p t ih =>
    by_cases hp : p.1 = k
    · simpa [eraseKey, List.filter_cons, hp] using ih
    · simpa [eraseKey, List.filter_cons, lookupKey, hp] using ih

theorem lookupKey_eraseKey_ne {α : Type} (l : List (String × α))
    (k k' : String) (h : k' ≠ k) :
    lookupKey (eraseKey l k) k' = lookupKey l k' := by
  induction l with
  | nil => rfl
  | cons p t ih =>
    by_cases hp : p.1 = k
    · have he : eraseKey (p :: t) k = eraseKey t k := by
        simp [eraseKey, List.filter_cons, hp]
      have hq : p.1 ≠ k' := by rw [hp]; exact Ne.symm h
      rw [he, ih]
      simp [lookupKey, hq]
    · have he : eraseKey (p :: t) k = p :: eraseKey t k := by
        simp [eraseKey, List.filter_cons, hp]
      rw [he]
      by_cases hq : p.1 = k'
      · simp [lookupKey, hq]
      · simp [lookupKey, hq, ih]

theorem legacyLoop_attempts (send : String → Except String Unit)
    (config : Config) :
    (legacyLoop send config).attempts =
      (resolvedGeneral config).map (fun t => t.2) := by
  induction config with
  | nil => rfl
  | cons p t ih =>
    cases h : strOrNull p.2.channelId with
    | none => simp [legacyLoop, resolvedGeneral, List.filterMap_cons, h, ih]
    | some ch =>
      cases hs : send ch <;>
        simp [legacyLoop, resolvedGeneral, List.filterMap_cons, h, hs, ih]

theorem legacyLoop_errors (send : String → Except String Unit)
    (config : Config) :
    (legacyLoop send config).errors = legacyFailures send config := by
  induction config with
  | nil => rfl
  | cons p t ih =>
    cases h : strOrNull p.2.channelId with
    | none =>
      simp [legacyLoop, legacyFailures, resolvedGeneral,
        List.filterMap_cons, h, ih]
    | some ch =>
      cases hs : send ch <;>
        simp [legacyLoop, legacyFailures, resolvedGeneral,
          List.filterMap_cons, h, hs, ih]

theorem legacyLoop_sentCount (send : String → Except String Unit)
    (config : Config) :
    (legacyLoop send config).sentCount = legacySucceeded send config := by
  induction config with
  | nil => rfl
  | cons p t ih =>
    cases h : strOrNull p.2.channelId with
    | none =>
      simp [legacyLoop, legacySucceeded, resolvedGeneral,
        List.filterMap_cons, h, ih]
    | some ch =>
      cases hs : send ch <;>
        simp [legacyLoop, legacySucceeded, resolvedGeneral,
          List.filterMap_cons, List.filter_cons, exceptOk, h, hs, ih]

theorem createdLoop_attempts (send : String → Except String Unit)
    (config : Config) (category : Option String)
    (entries : List (String × GuildConfig)) :
    (createdLoop send config category entries).attempts =
      entries.filterMap (fun p => getChannelId config p.1 category) := by
  induction entries with
  | nil => rfl
  | cons p t ih =>
    cases h : getChannelId config p.1 category with
    | none => simp [createdLoop, List.filterMap_cons, h, ih]
    | some ch =>
      cases hs : send ch <;>
        simp [createdLoop, List.filterMap_cons, h, hs, ih]

theorem createdLoop_sentCount (send : String → Except String Unit)
    (config : Config) (category : Option String)
    (entries : List (String × GuildConfig)) :
    (createdLoop send config category entries).sentCount =
      ((entries.filterMap (fun p => getChannelId config p.1 category)).filter
        (fun ch => exceptOk (send ch))).length := by
  induction entries with
  | nil => rfl
  | cons p t ih =>
    cases h : getChannelId config p.1 category with
    | none => simp [createdLoop, List.filterMap_cons, h, ih]
    | some ch =>
      cases hs : send ch <;>
        simp [createdLoop, List.filterMap_cons, List.filter_cons, exceptOk,
          h, hs, ih]

theorem resolveTargets_map_snd (config : Config) (category : Option String) :
    (resolveTargets config category).map (fun t => t.2) =
      config.filterMap (fun p => getChannelId config p.1 category) := by
  simp [resolveTargets, List.map_filterMap, Option.map_map, Function.comp]

theorem disputeLoop_ok_count (create : String → CreateResult)
    (config : Config) (category : Option String)
    (entries : List (String × GuildConfig)) :
    ((disputeLoop create config category entries).2.filter
      (fun ch => createOk (create ch))).length ≤ 1 := by
  induction entries with
  | nil => simp [disputeLoop]
  | cons p t ih =>
    cases h : getChannelId config p.1 category with
    | none => simpa [disputeLoop, h] using ih
    | some ch =>
      cases hc : create ch with
      | unsupported =>
        simpa [disputeLoop, h, hc, List.filter_cons, createOk] using ih
      | ok tid =>
        simp only [disputeLoop, h, hc]
        simpa using List.length_filter_le _ [ch]
      | err e =>
        simp only [disputeLoop, h, hc]
        simpa using List.length_filter_le _ [ch]

theorem disputeLoop_stop (create : String → CreateResult) (config : Config)
    (category : Option String) (entries : List (String × GuildConfig)) :
    ((disputeLoop create config category entries).2.dropLast.all
      (fun ch => isUnsupported (create ch))) = true := by
  induction entries with
  | nil => simp [disputeLoop]
  | cons p t ih =>
    cases h : getChannelId config p.1 category with
    | none => simpa [disputeLoop, h] using ih
    | some ch =>
      cases hc : create ch with
      | unsupported =>
        cases hr : (disputeLoop create config category t).2 with
        | nil => simp [disputeLoop, h, hc, hr]
        | cons a l =>
          rw [hr] at ih
          simp only [disputeLoop, h, hc, hr]
          rw [List.dropLast_cons₂]
          simp only [List.all_cons]
          rw [ih]
          simp [isUnsupported, hc]
      | ok tid => simp [disputeLoop, h, hc]
      | err e => simp [disputeLoop, h, hc]

/-- C1: counterexample.  The claim says category resolution never falls
back to the scope's general destination; but getChannelId on a scope
configured with only a general channel resolves a categorized event to
that general channel (the claim requires none here). -/
theorem c1_category_fallback_counterexample :
    getChannelId cfgGeneralOnly "g" (some "wos_accounts") = some "GEN" := rfl

/-- C1 amended: for a configured scope and a truthy category, resolution
returns the category-specific entry when one is configured, and otherwise
FALLS BACK to the scope's general destination (absent only when neither
is configured). -/
theorem c1_category_resolution_amended (config : Config) (g c : String)
    (gc : GuildConfig) (h : lookupKey config g = some gc) (hc : c ≠ "") :
    (∀ ch, lookupTruthy gc.categoryChannels c = some ch →
        getChannelId config g (some c) = some ch)
  ∧ (lookupTruthy gc.categoryChannels c = none →
        getChannelId config g (some c) = strOrNull gc.channelId) := by
  constructor
  · intro ch hch
    simp [getChannelId, h, hc, hch]
  · intro hnone
    simp [getChannelId, h, hc, hnone]

/-- C1 amended, witness: a scope with general channel W and no entry for
category "nope" resolves to W. -/
theorem c1_category_resolution_amended_witness :
    getChannelId cfgOneCategory "w" (some "nope") = some "W" := by
  have h := (c1_category_resolution_amended cfgOneCategory "w" "nope"
    ⟨some "W", [("k", "V")]⟩ rfl (by decide)).2 rfl
  simpa [strOrNull] using h

/-- C2: counterexample.  Two scopes both resolve a target, thread
creation fails on the first (C1): handleDisputeCreated re-throws the
failure and the second target (C2) never receives a delivery attempt —
delivery is NOT isolated per target for dispute.created. -/
theorem c2_dispute_abort_counterexample :
    (handleDisputeCreated createFailFirst cfgTwoGuilds none).1 =
        Except.error "send failed"
  ∧ (handleDisputeCreated createFailFirst cfgTwoGuilds none).2 = ["C1"] :=
  ⟨rfl, rfl⟩

/-- C2 amended: failure isolation holds for the two listing delivery
loops — every resolved target receives its own delivery attempt whatever
the other targets' outcomes, and the legacy loop captures one error
record per failed target — but NOT for dispute.created, whose loop ends
at the first attempt that is not skipped as an unsupported channel
(every attempted channel before the last was an unsupported-type skip). -/
theorem c2_failure_isolation_amended (send : String → Except String Unit)
    (create : String → CreateResult) (config : Config)
    (category : Option String) :
    (legacyLoop send config).attempts =
        (resolvedGeneral config).map (fun t => t.2)
  ∧ (legacyLoop send config).errors = legacyFailures send config
  ∧ (handleListingCreatedLoop send config category).attempts =
        (resolveTargets config category).map (fun t => t.2)
  ∧ ((handleDisputeCreated create config category).2.dropLast.all
        (fun ch => isUnsupported (create ch))) = true :=
  ⟨legacyLoop_attempts send config, legacyLoop_errors send config,
   (createdLoop_attempts send config category config).trans
     (resolveTargets_map_snd config category).symm,
   disputeLoop_stop create config category config⟩

/-- C3: counterexample.  Both scopes of cfgTwoGuilds have a matching
routing entry and thread creation always succeeds, yet dispute.created
dispatch attempts only the first scope's channel C1 — the second
configured scope is never visited. -/
theorem c3_single_delivery_counterexample :
    (handleDisputeCreated createOkAll cfgTwoGuilds none).2 = ["C1"]
  ∧ getChannelId cfgTwoGuilds "g2" none = some "C2" := ⟨rfl, rfl⟩

/-- C3 amended: dispute.created dispatch creates at most one thread per
event — the loop returns at the first successful creation (or aborts at
the first failure), so at most one attempted channel has a successful
creation outcome. -/
theorem c3_at_most_one_thread_amended (create : String → CreateResult)
    (config : Config) (category : Option String) :
    ((handleDisputeCreated create config category).2.filter
      (fun ch => createOk (create ch))).length ≤ 1 :=
  disputeLoop_ok_count create config category config

/-- C4: counterexample, refuting the claimed aggregation on both dispatch
paths.  First, a config whose only scope entry holds no destination at
all: zero targets are resolved and zero destinations are configured, yet
the legacy aggregation responds with a 500 failure (the claim requires a
no-op success here).  Second, a scope with one resolved target whose
delivery fails: the unified listing.created dispatch still responds
success with no per-target errors (the claim requires a failure carrying
the error here). -/
theorem c4_aggregation_counterexample :
    (legacyListingResult sendOkAll cfgNoDest = WebhookOutcome.err500 []
      ∧ resolvedGeneral cfgNoDest = [])
  ∧ (unifiedListingCreatedResult sendFailAll cfgGeneralOnly none =
        WebhookOutcome.ok 0 []
      ∧ resolveTargets cfgGeneralOnly none = [("g", "GEN")]) :=
  ⟨⟨rfl, rfl⟩, rfl, rfl⟩

/-- C4 amended: the legacy dispatch result is a failure carrying the
per-target errors exactly when zero deliveries succeeded AND the routing
table has at least one scope entry (even an entry with no configured
destination); otherwise it is a success carrying the count and the
per-target errors.  The unified listing.created dispatch result is
ALWAYS a success carrying no per-target errors — per-target failures are
swallowed inside the loop — even when one or more targets were resolved
and every delivery failed. -/
theorem c4_aggregation_amended (send : String → Except String Unit)
    (config : Config) (category : Option String) :
    legacyListingResult send config =
      (if legacySucceeded send config = 0 ∧ config ≠ [] then
        WebhookOutcome.err500 (legacyFailures send config)
      else
        WebhookOutcome.ok (legacySucceeded send config)
          (legacyFailures send config))
  ∧ unifiedListingCreatedResult send config category =
      WebhookOutcome.ok (createdSucceeded send config category) [] := by
  constructor
  · simp only [legacyListingResult, legacyLoop_sentCount, legacyLoop_errors]
  · simp only [unifiedListingCreatedResult, handleListingCreatedLoop,
      createdLoop_sentCount, createdSucceeded, resolveTargets_map_snd]

/-- C5: counterexample.  On a payload with no created_at, the formatter
reads the process clock (`new Date()` / Date.now()), so two calls at
different times produce different messages — formatting is not a pure
function of the payload alone. -/
theorem c5_clock_counterexample :
    formatListingCreated pNoTimestamp 1000 ≠ formatListingCreated pNoTimestamp 2000 := by
  intro h
  have h1 : (formatListingCreated pNoTimestamp 1000).timestamp =
      Timestamp.clock 1000 := rfl
  rw [h] at h1
  have h2 : (formatListingCreated pNoTimestamp 2000).timestamp =
      Timestamp.clock 2000 := rfl
  rw [h1] at h2
  simp at h2

/-- C5 amended: formatting is a pure function of the payload and the
call-time clock; whenever the payload carries a (truthy) created_at, the
result is independent of the clock, so two calls on such a payload yield
identical messages.  With created_at absent the embed timestamp is the
call-time clock. -/
theorem c5_determinism_amended (p : ListingPayload) (t1 t2 : ℕ)
    (h : ∃ s, strOrNull p.created_at = some s) :
    formatListingCreated p t1 = formatListingCreated p t2 := by
  obtain ⟨s, hs⟩ := h
  simp [formatListingCreated, hs]

/-- C5 amended, witness: with created_at present, formatting at clock 1
and clock 2 agrees. -/
theorem c5_determinism_amended_witness :
    formatListingCreated pWithTimestamp 1 = formatListingCreated pWithTimestamp 2 :=
  c5_determinism_amended pWithTimestamp 1 2 ⟨"2024-01-01T00:00:00Z", rfl⟩

/-- C6: counterexample.  For resolution code "buyer" the claim requires
the text "favor of buyer" on a blue message, but handleDisputeResolved
renders the raw code "buyer" and always uses green 0x51CF66 — there is
no 4-way case on the resolution code. -/
theorem c6_resolution_case_counterexample :
    fieldValue (formatDisputeResolved pBuyerResolved 0) "⚖️ Resolution" =
        some (some "buyer")
  ∧ (formatDisputeResolved pBuyerResolved 0).color = 0x51CF66
  ∧ "buyer" ≠ "favor of buyer" := ⟨rfl, rfl, by decide⟩

/-- C6 amended: dispute-resolved messages always use the fixed green
color 0x51CF66; the resolution field shows the raw resolution code
(default "N/A" when absent), the resolver display name defaults to
"Admin" and the notes default to "No notes provided" when absent. -/
theorem c6_resolved_fields_amended (p : DisputeResolvedPayload) (now : ℕ) :
    (formatDisputeResolved p now).color = 0x51CF66
  ∧ (p.resolution = none →
      fieldValue (formatDisputeResolved p now) "⚖️ Resolution" =
        some (some "N/A"))
  ∧ (∀ s, p.resolution = some s → s ≠ "" →
      fieldValue (formatDisputeResolved p now) "⚖️ Resolution" =
        some (some s))
  ∧ (p.resolver_username = none →
      fieldValue (formatDisputeResolved p now) "👤 Resolved By" =
        some (some "Admin"))
  ∧ (p.resolution_notes = none →
      fieldValue (formatDisputeResolved p now) "📝 Notes" =
        some (some "No notes provided")) := by
  have hres : fieldValue (formatDisputeResolved p now) "⚖️ Resolution" =
      some (some ((strOrNull p.resolution).getD "N/A")) := rfl
  have hby : fieldValue (formatDisputeResolved p now) "👤 Resolved By" =
      some (some ((strOrNull p.resolver_username).getD "Admin")) := rfl
  have hnotes : fieldValue (formatDisputeResolved p now) "📝 Notes" =
      some (some ((strOrNull p.resolution_notes).getD "No notes provided")) := rfl
  refine ⟨rfl, ?_, ?_, ?_, ?_⟩
  · intro h
    rw [hres]
    simp [strOrNull, h]
  · intro s h hs
    rw [hres]
    simp [strOrNull, h, hs]
  · intro h
    rw [hby]
    simp [strOrNull, h]
  · intro h
    rw [hnotes]
    simp [strOrNull, h]

/-- C6 amended, witness: a payload with every optional field absent gets
"N/A", "Admin", "No notes provided" and green. -/
theorem c6_resolved_fields_amended_witness :
    fieldValue (formatDisputeResolved pDefaultsResolved 5) "⚖️ Resolution" =
        some (some "N/A")
  ∧ fieldValue (formatDisputeResolved pDefaultsResolved 5) "👤 Resolved By" =
        some (some "Admin")
  ∧ fieldValue (formatDisputeResolved pDefaultsResolved 5) "📝 Notes" =
        some (some "No notes provided")
  ∧ (formatDisputeResolved pDefaultsResolved 5).color = 0x51CF66 :=
  ⟨(c6_resolved_fields_amended pDefaultsResolved 5).2.1 rfl,
   (c6_resolved_fields_amended pDefaultsResolved 5).2.2.2.1 rfl,
   (c6_resolved_fields_amended pDefaultsResolved 5).2.2.2.2 rfl,
   (c6_resolved_fields_amended pDefaultsResolved 5).1⟩

/-- C7: counterexample.  A truthy but unparseable price string renders as
"$NaN", not the "$0.00" the claim requires (`parseFloat("abc")` is NaN
and only a falsy price falls back to 0). -/
theorem c7_price_nan_counterexample :
    fieldValue (formatListingCreated pPriceAbc 0) "💰 Price" =
        some (some "$NaN")
  ∧ "$NaN" ≠ "$0.00" := ⟨rfl, by decide⟩

/-- C7 amended: the price field is a fixed 2-decimal currency string from
a numeric or numeric-string input — "99.9" renders "$99.90" and an absent
price renders "$0.00" — but a truthy price string with no parseable
numeric content renders "$NaN". -/
theorem c7_price_formatting_amended (p : ListingPayload) (now : ℕ) :
    (p.price = JSPrice.str "99.9" →
      fieldValue (formatListingCreated p now) "💰 Price" =
        some (some "$99.90"))
  ∧ (p.price = JSPrice.absent →
      fieldValue (formatListingCreated p now) "💰 Price" =
        some (some "$0.00"))
  ∧ (∀ s, p.price = JSPrice.str s → jsParseFloat s = none → s ≠ "" →
      fieldValue (formatListingCreated p now) "💰 Price" =
        some (some "$NaN")) := by
  have hfv : fieldValue (formatListingCreated p now) "💰 Price" =
      some (some ("$" ++ listingPriceValue p.price)) := rfl
  refine ⟨?_, ?_, ?_⟩
  · intro hp
    rw [hfv, hp]
    decide
  · intro hp
    rw [hfv, hp]
    decide
  · intro s hp hparse hs
    rw [hfv, hp]
    have hval : listingPriceValue (JSPrice.str s) = "NaN" := by
      simp [listingPriceValue, priceTruthy, hs, hparse]
    rw [hval]
    decide

/-- C7 amended, witness: the unparseable price string "zz" renders
"$NaN". -/
theorem c7_price_formatting_amended_witness :
    fieldValue (formatListingCreated pPriceZZ 0) "💰 Price" =
      some (some "$NaN") :=
  (c7_price_formatting_amended pPriceZZ 0).2.2 "zz" rfl (by decide) (by decide)

/-- C8: confirmed.  A (truthy) description of length at most 1000 appears
unchanged in the description field; a longer one is cut to its first 997
characters plus the 3-character "..."; with no (truthy) description the
message carries no description field. -/
theorem c8_description_truncation (p : ListingPayload) (now : ℕ) :
    (∀ d, strOrNull p.description = some d →
      fieldValue (formatListingCreated p now) "📝 Description" =
        some (some (if d.length > 1000 then d.take 997 ++ "..." else d)))
  ∧ (strOrNull p.description = none →
      fieldValue (formatListingCreated p now) "📝 Description" = none) := by
  constructor
  · intro d hd
    have h : fieldValue (formatListingCreated p now) "📝 Description" =
        some (some (truncateDescription d)) := by
      unfold formatListingCreated fieldValue
      rw [hd]
      rfl
    exact h
  · intro hd
    unfold formatListingCreated fieldValue
    rw [hd]
    rfl

/-- C8 witness: the 5-character description "hello" appears unchanged. -/
theorem c8_description_truncation_witness :
    fieldValue (formatListingCreated pDescHello 3) "📝 Description" =
      some (some "hello") := by
  have h := (c8_description_truncation pDescHello 3).1 "hello" rfl
  rw [h]
  decide

/-- C9: the code slip.  On a listing.created payload with no category,
handleListingCreated passes the normalized null straight into the
category field value (discord.js rejects a null embed field value at
send time), while the legacy handler in the same file defaults the same
field to "N/A" as the claim states. -/
theorem c9_category_null_field :
    fieldValue (formatListingCreated pNoCategory 0) "📂 Category" = some none
  ∧ fieldValue (formatListingLegacy pNoCategory 0) "📂 Category" =
      some (some "N/A") := ⟨rfl, rfl⟩

/-- C10: counterexample.  The scope g has a general channel and the
category entry wos_accounts → CAT; removing with no category reports a
removal but deletes the scope's ENTIRE entry, so the category entry is
gone too (the claim requires it to survive). -/
theorem c10_remove_general_counterexample :
    getChannelId cfgRemoveDemo "g" (some "wos_accounts") = some "CAT"
  ∧ (removeChannel cfgRemoveDemo "g" none).2 = true
  ∧ getChannelId (removeChannel cfgRemoveDemo "g" none).1 "g"
      (some "wos_accounts") = none := ⟨rfl, rfl, rfl⟩

/-- C10 amended: removing a scope's configuration with no category
deletes the scope's whole entry — general destination AND its
category-specific entries — leaves every other scope's entry unchanged,
and reports whether anything was removed (whether the scope had an
entry). -/
theorem c10_remove_general_amended (config : Config) (g : String) :
    lookupKey (removeChannel config g none).1 g = none
  ∧ (∀ g', g' ≠ g →
      lookupKey (removeChannel config g none).1 g' = lookupKey config g')
  ∧ (removeChannel config g none).2 = (lookupKey config g).isSome := by
  cases h : lookupKey config g with
  | none =>
    refine ⟨?_, ?_, ?_⟩
    · simp [removeChannel, h]
    · intro g' hg
      simp [removeChannel, h]
    · simp [removeChannel, h]
  | some gc =>
    refine ⟨?_, ?_, ?_⟩
    · simp [removeChannel, h, lookupKey_eraseKey_self]
    · intro g' hg
      simp [removeChannel, h, lookupKey_eraseKey_ne _ _ _ hg]
    · simp [removeChannel, h]

/-- C10 amended, witness: removing scope g leaves scope h untouched and
reports the removal. -/
theorem c10_remove_general_amended_witness :
    lookupKey (removeChannel cfgRemoveDemo "g" none).1 "h" =
        some ⟨some "HC", []⟩
  ∧ (removeChannel cfgRemoveDemo "g" none).2 = true := by
  constructor
  · have h2 := (c10_remove_general_amended cfgRemoveDemo "g").2.1 "h" (by decide)
    rw [h2]
    rfl
  · have h3 := (c10_remove_general_amended cfgRemoveDemo "g").2.2
    rw [h3]
    rfl
